import Mathlib

/-!
Verification of the resilient API client layer of a photo-sharing teaching
repository: the transactional mapping store (`shorten.py`) and the retrying
HTTP client (`photoapp.py`).

The mapping store is shallow-embedded as pure functions over the committed
state of `LinksTable` (a list of rows), with explicit fault injection:

* `conn : Bool` — whether `get_dbConn()` yields a connection.  In the source
  `get_dbConn` catches every exception and returns `None`, so a connection
  failure surfaces as `dbConn = None`, never as an exception from
  `get_dbConn` itself.
* `fault : Option Nat` — the index (in issue order) of the database call
  that raises during the operation; `none` (or an index past the last call)
  injects no failure.  Each operation documents its call numbering.

Transactions are modelled by working on a pending copy of the table:
`commit` installs it, `rollback` (and any failure before commit) leaves the
committed table untouched.  An operation returns a `PyResult` — a returned
value, or an uncaught Python exception propagating to the caller.

The HTTP client is embedded with a transport oracle `Nat → HttpAttempt`
giving the outcome of each attempt, and a model of the tenacity retry
decorator shared by every operation:
`retry(stop=stop_after_attempt(3), wait=wait_exponential(multiplier=1,
min=2, max=30), retry=retry_if_exception_type((ConnectionError, Timeout)),
reraise=True)`.
-/

/-- Outcome of calling a Python function: a returned value, or an uncaught
exception (named by its Python class) propagating to the caller. -/
inductive PyResult (α : Type) where
  | ok  : α → PyResult α
  | exc : String → PyResult α
deriving Repr, DecidableEq

namespace Shorten

/-- A row of `LinksTable`: columns `ShortUrl`, `LongUrl`, `LookedUpCount`. -/
structure Row where
  shorturl : String
  longurl  : String
  count    : Nat
deriving Repr, DecidableEq

/-- The committed state of `LinksTable`. -/
abbrev Table := List Row

/-- Embeds `SELECT ... FROM LinksTable WHERE ShortUrl = %s` followed by
`fetchone()`: the first row whose key matches, if any. -/
def findRow (t : Table) (s : String) : Option Row :=
  t.find? fun r => r.shorturl == s

/-- Embeds `UPDATE LinksTable SET LookedUpCount = LookedUpCount + 1
WHERE ShortUrl = %s`: bump the counter of every row whose key matches. -/
def incrKey (s : String) (t : Table) : Table :=
  t.map fun r => if r.shorturl == s then { r with count := r.count + 1 } else r

/-- `true` when the injected fault, if any, lies at call index `≥ n`, i.e.
the first `n` database calls of the operation all succeed. -/
def noFaultBelow (fault : Option Nat) (n : Nat) : Bool :=
  match fault with
  | none => true
  | some k => n ≤ k

/-- `get_url` (shorten.py).  Database calls in issue order:
0 = `begin`/`cursor`, 1 = `UPDATE` (counter increment), 2 = `SELECT`,
3 = `commit`.  On any of these raising, the `except` handler rolls the
transaction back and returns `""`.  When `get_dbConn()` returned `None`,
`dbConn.begin()` raises `AttributeError`; the handler then calls
`dbConn.rollback()` on `None`, which itself raises `AttributeError`, and
that second exception escapes to the caller (the `finally` clause skips
`close` because `dbConn is None`). -/
def get_url (conn : Bool) (fault : Option Nat) (t : Table) (s : String) :
    PyResult String × Table :=
  if conn = false then
    (PyResult.exc "AttributeError", t)
  else if fault = some 0 then (PyResult.ok "", t)
  else if fault = some 1 then (PyResult.ok "", t)
  else if fault = some 2 then (PyResult.ok "", t)
  else if fault = some 3 then (PyResult.ok "", t)
  else
    let t1 := incrKey s t
    (PyResult.ok (match findRow t1 s with | some r => r.longurl | none => ""), t1)

/-- `get_stats` (shorten.py).  Database calls: 0 = `SELECT`.  Its `except`
handler returns `-1` without touching the connection, so even a `None`
connection (where `dbConn.cursor()` raises `AttributeError`) yields `-1`
rather than a propagated exception. -/
def get_stats (conn : Bool) (fault : Option Nat) (t : Table) (s : String) :
    PyResult Int × Table :=
  if conn = false then (PyResult.ok (-1), t)
  else if fault = some 0 then (PyResult.ok (-1), t)
  else
    match findRow t s with
    | some r => (PyResult.ok (r.count : Int), t)
    | none => (PyResult.ok (-1), t)

/-- `put_shorturl` (shorten.py).  Database calls in issue order:
0 = `begin`/`cursor`, 1 = check `SELECT`; then, when a row was found,
2 = `commit` (both the confirm and the collision sub-path commit before
returning); when no row was found, 2 = `INSERT`, 3 = `commit`.  Any of
these raising runs the handler (`rollback`, return `False`); a `None`
connection makes the handler itself raise `AttributeError`. -/
def put_shorturl (conn : Bool) (fault : Option Nat) (t : Table)
    (longurl shorturl : String) : PyResult Bool × Table :=
  if conn = false then
    (PyResult.exc "AttributeError", t)
  else if fault = some 0 then (PyResult.ok false, t)
  else if fault = some 1 then (PyResult.ok false, t)
  else
    match findRow t shorturl with
    | some r =>
        if fault = some 2 then (PyResult.ok false, t)
        else if r.longurl == longurl then (PyResult.ok true, t)
        else (PyResult.ok false, t)
    | none =>
        if fault = some 2 then (PyResult.ok false, t)
        else if fault = some 3 then (PyResult.ok false, t)
        else (PyResult.ok true, t ++ [⟨shorturl, longurl, 0⟩])

/-- `put_reset` (shorten.py).  Database calls in issue order:
0 = `begin`/`cursor`, 1 = `DELETE FROM LinksTable`, 2 = `commit`.  Failure
handling as in `put_shorturl`, including the `AttributeError` escape on a
`None` connection. -/
def put_reset (conn : Bool) (fault : Option Nat) (t : Table) :
    PyResult Bool × Table :=
  if conn = false then
    (PyResult.exc "AttributeError", t)
  else if fault = some 0 then (PyResult.ok false, t)
  else if fault = some 1 then (PyResult.ok false, t)
  else if fault = some 2 then (PyResult.ok false, t)
  else (PyResult.ok true, ([] : Table))

/-- The four database calls of `get_url` all succeed and the connection was
obtained: the lookup transaction commits. -/
def getUrlOk (conn : Bool) (fault : Option Nat) : Bool :=
  conn && noFaultBelow fault 4

/-- The single database call of `get_stats` succeeds on a live connection. -/
def getStatsOk (conn : Bool) (fault : Option Nat) : Bool :=
  conn && noFaultBelow fault 1

/-- Schema invariant of `LinksTable`: `ShortUrl` is a key, so rows carry
pairwise distinct short URLs. -/
def Keyed (t : Table) : Prop :=
  t.Pairwise fun a b => a.shorturl ≠ b.shorturl

/-- All rows of the table carrying the given short URL. -/
def rowsFor (t : Table) (s : String) : Table :=
  t.filter fun r => r.shorturl == s

/-- The stored lookup count of a key, `-1` when the key is absent — the
value `get_stats` reports on a healthy database. -/
def statsOf (t : Table) (s : String) : Int :=
  match findRow t s with
  | some r => (r.count : Int)
  | none => -1

/-- One public operation of the mapping store, with its arguments. -/
inductive MappingOp where
  | lookupOp (s : String)
  | putOp (longurl shorturl : String)
  | resetOp
  | statsOp (s : String)
deriving Repr, DecidableEq

/-- The committed table after running an operation under the given
connection outcome and injected fault. -/
def applyOp (op : MappingOp) (conn : Bool) (fault : Option Nat) (t : Table) :
    Table :=
  match op with
  | .lookupOp s => (get_url conn fault t s).2
  | .putOp longurl shorturl => (put_shorturl conn fault t longurl shorturl).2
  | .resetOp => (put_reset conn fault t).2
  | .statsOp s => (get_stats conn fault t s).2

end Shorten

namespace PhotoApp

/-- Parsed shape of an HTTP response body, as the client consumes it:
`invalid` — not JSON (`response.json()` raises); `message` — an error body
`\x7b"message": m\x7d`; `imageData` — a download body with keys
`local_filename` and `data`; `asset` — an upload reply with key `assetid`. -/
inductive Body where
  | invalid
  | message (m : String)
  | imageData (localname : String) (data : String)
  | asset (assetid : String)
deriving Repr, DecidableEq

/-- What the transport does on one attempt: raise a connectivity/timeout
error (`requests` `ConnectionError` / `Timeout`), or deliver a response
with a status code and a body. -/
inductive HttpAttempt where
  | connFail
  | resp (status : Nat) (body : Body)
deriving Repr, DecidableEq

/-- The exceptions an operation can raise: `connError` models
`ConnectionError`/`Timeout`, `httpError` a `requests` `HTTPError`,
`valueError` a `ValueError`, `keyError` a `KeyError` on a missing body
key. -/
inductive ApiError where
  | connError
  | httpError (m : String)
  | valueError (m : String)
  | keyError (k : String)
deriving Repr, DecidableEq

/-- The retry decorator's predicate
`retry_if_exception_type((ConnectionError, Timeout))`: only
connectivity/timeout failures are retried. -/
def isRetryable : ApiError → Bool
  | .connError => true
  | _ => false

/-- The client's error-text convention
`f"status code \x7bresponse.status_code\x7d: \x7bmsg\x7d"`. -/
def statusMsg (status : Nat) (m : String) : String :=
  "status code " ++ toString status ++ ": " ++ m

/-- tenacity `wait_exponential(multiplier, min, max)`: the delay slept
after the `n`-th failed attempt is `multiplier * 2 ^ (n - 1)` clamped
into `[mn, mx]`. -/
def waitExp (multiplier mn mx : Nat) (n : Nat) : Nat :=
  max mn (min (multiplier * 2 ^ (n - 1)) mx)

/-- The backoff configured on every operation:
`wait_exponential(multiplier=1, min=2, max=30)`. -/
def photoappWait (n : Nat) : Nat :=
  waitExp 1 2 30 n

/-- The tenacity loop for `stop=stop_after_attempt(maxAttempts)` with
`reraise=True`, unrolled from attempt number `attempt` with `remaining`
retries left.  `op k` is the outcome of the `k`-th attempt (1-based).
Returns the final outcome, the number of the last attempt made, and the
list of backoff delays slept. -/
def retryExec {α : Type} (op : Nat → Except ApiError α) :
    Nat → Nat → Except ApiError α × Nat × List Nat
  | attempt, 0 =>
    match op attempt with
    | .ok a => (.ok a, attempt, [])
    | .error e => (.error e, attempt, [])
  | attempt, r + 1 =>
    match op attempt with
    | .ok a => (.ok a, attempt, [])
    | .error e =>
      if isRetryable e then
        let rest := retryExec op (attempt + 1) r
        (rest.1, rest.2.1, photoappWait attempt :: rest.2.2)
      else (.error e, attempt, [])

/-- The decorator shared verbatim by every API operation:
`stop_after_attempt(3)` — attempt 1 plus at most 2 retries. -/
def runRetry {α : Type} (op : Nat → Except ApiError α) :
    Except ApiError α × Nat × List Nat :=
  retryExec op 1 2

/-- One undecorated attempt of `get_image` (photoapp.py), given the
transport's outcome.  Status 200 parses the body and resolves the
destination name (caller-supplied name takes precedence); the write of the
decoded bytes to that file is an external effect outside this model.
Statuses 400 and 500 parse the body and raise
`ValueError(f"status code ...: \x7bmsg\x7d")`; any other status runs
`response.raise_for_status()`, which raises `HTTPError` for 4xx/5xx and
does nothing otherwise — in which case the function falls off the end and
returns `None`. -/
def get_image_attempt (lf : Option String) (a : HttpAttempt) :
    Except ApiError (Option String) :=
  match a with
  | .connFail => .error .connError
  | .resp status body =>
    if status = 200 then
      match body with
      | .invalid => .error (.httpError (statusMsg status "invalid JSON response"))
      | .imageData orig _ => .ok (some (lf.getD orig))
      | _ => .error (.keyError "local_filename")
    else if status = 400 ∨ status = 500 then
      match body with
      | .invalid => .error (.httpError (statusMsg status "invalid JSON response"))
      | .message m => .error (.valueError (statusMsg status m))
      | _ => .error (.keyError "message")
    else if 400 ≤ status ∧ status < 600 then
      .error (.httpError ("HTTP error for status " ++ toString status))
    else
      .ok none

/-- `get_image` with its retry decorator: the transport oracle `tr` gives
each attempt's outcome; `assetid` only shapes the request URL. -/
def get_image (tr : Nat → HttpAttempt) (assetid : String)
    (lf : Option String) : Except ApiError (Option String) × Nat × List Nat :=
  runRetry fun k => get_image_attempt lf (tr k)

/-- Filesystem model for the upload path: the size in bytes of the regular
file at a path, when one exists (`os.path.isfile`). -/
abbrev FS := String → Option Nat

/-- `_validate_local_filename` (photoapp.py): `None`, a blank string, and a
path that is not an existing regular file each raise `ValueError`; the
file's size is NOT examined.  The Python test `strip() == ""` holds
exactly when every character of the string is whitespace, which is how the
blank check is embedded here. -/
def validate_local_filename (fs : FS) (lf : Option String) :
    Except ApiError String :=
  match lf with
  | none => .error (.valueError "local_filename is required")
  | some f =>
    if f.data.all Char.isWhitespace then
      .error (.valueError "local_filename cannot be empty")
    else
      match fs f with
      | none => .error (.valueError "local_filename does not exist or is not a file")
      | some _ => .ok f

/-- One undecorated attempt of `post_image` (photoapp.py): build the URL,
validate the local file, then read/encode it and POST.  The second
component records whether a transport call was made on this attempt.
`response.json()` runs before the status dispatch, so an unparsable body is
an `HTTPError` on every status; 200 reads `body["assetid"]`, anything else
reads `body["message"]` and raises `HTTPError`. -/
def post_image_attempt (fs : FS) (userid : String) (lf : Option String)
    (a : HttpAttempt) : Except ApiError String × Bool :=
  match validate_local_filename fs lf with
  | .error e => (.error e, false)
  | .ok _ =>
    match a with
    | .connFail => (.error .connError, true)
    | .resp status body =>
      if status = 200 then
        match body with
        | .invalid => (.error (.httpError (statusMsg status "invalid JSON response")), true)
        | .asset aid => (.ok aid, true)
        | _ => (.error (.keyError "assetid"), true)
      else
        match body with
        | .invalid => (.error (.httpError (statusMsg status "invalid JSON response")), true)
        | .message m => (.error (.httpError (statusMsg status m)), true)
        | _ => (.error (.keyError "message"), true)

/-- `post_image` with its retry decorator (the `userid` only shapes the
request URL). -/
def post_image (fs : FS) (userid : String) (lf : Option String)
    (tr : Nat → HttpAttempt) : Except ApiError String × Nat × List Nat :=
  runRetry fun k => (post_image_attempt fs userid lf (tr k)).1

/-- A filesystem holding exactly one file, `empty.png`, of size zero. -/
def emptyFileFS : FS :=
  fun f => if f = "empty.png" then some 0 else none

end PhotoApp

namespace Shorten

theorem keyed_eq_of_mem {t : Table} (hK : Keyed t) {a b : Row}
    (ha : a ∈ t) (hb : b ∈ t) (h : a.shorturl = b.shorturl) : a = b := by
  induction t with
  | nil => cases ha
  | cons x xs ih =>
    rcases List.pairwise_cons.mp hK with ⟨hx, hxs⟩
    rcases List.mem_cons.mp ha with rfl | ha2
    · rcases List.mem_cons.mp hb with rfl | hb2
      · rfl
      · exact absurd h (hx b hb2)
    · rcases List.mem_cons.mp hb with rfl | hb2
      · exact absurd h.symm (hx a ha2)
      · exact ih hxs ha2 hb2

theorem findRow_eq_none_iff {t : Table} {s : String} :
    findRow t s = none ↔ ∀ r ∈ t, r.shorturl ≠ s := by
  simp [findRow, List.find?_eq_none]

theorem findRow_keyed_mem {t : Table} (hK : Keyed t) {r : Row}
    (hr : r ∈ t) : findRow t r.shorturl = some r := by
  induction t with
  | nil => cases hr
  | cons x xs ih =>
    rcases List.pairwise_cons.mp hK with ⟨hx, hxs⟩
    rcases List.mem_cons.mp hr with rfl | hr2
    · simp [findRow, List.find?_cons]
    · have hne : x.shorturl ≠ r.shorturl := hx r hr2
      have : (x.shorturl == r.shorturl) = false := by
        simpa using hne
      simp [findRow, List.find?_cons, this]
      exact ih hxs hr2

theorem findRow_cons (x : Row) (t : Table) (s : String) :
    findRow (x :: t) s = if x.shorturl == s then some x else findRow t s := by
  cases h : x.shorturl == s <;> simp [findRow, List.find?_cons, h]

theorem findRow_incrKey (t : Table) (s : String) :
    findRow (incrKey s t) s =
      (findRow t s).map fun r => { r with count := r.count + 1 } := by
  induction t with
  | nil => rfl
  | cons x xs ih =>
    rw [show incrKey s (x :: xs)
        = (if x.shorturl == s then { x with count := x.count + 1 } else x)
            :: incrKey s xs from rfl]
    cases hb : x.shorturl == s with
    | true =>
      rw [if_pos rfl, findRow_cons, findRow_cons]
      simp [hb]
    | false =>
      rw [if_neg (by simp), findRow_cons, findRow_cons]
      simp [hb, ih]

theorem noFaultBelow_four {fault : Option Nat} (h0 : ¬ fault = some 0)
    (h1 : ¬ fault = some 1) (h2 : ¬ fault = some 2) (h3 : ¬ fault = some 3) :
    noFaultBelow fault 4 = true := by
  cases fault with
  | none => rfl
  | some k =>
    simp only [Option.some.injEq] at h0 h1 h2 h3
    simp only [noFaultBelow, decide_eq_true_eq]
    omega

theorem findRow_append_none {t : Table} {s : String} (u : Table)
    (h : findRow t s = none) : findRow (t ++ u) s = findRow u s := by
  induction t with
  | nil => rfl
  | cons x xs ih =>
    rw [findRow_cons] at h
    rw [List.cons_append, findRow_cons]
    cases hb : x.shorturl == s with
    | true => simp [hb] at h
    | false =>
      simp only [hb, Bool.false_eq_true, if_false] at h ⊢
      exact ih h

theorem rowsFor_eq_nil {t : Table} {s : String} (h : findRow t s = none) :
    rowsFor t s = [] := by
  rw [findRow_eq_none_iff] at h
  rw [rowsFor, List.filter_eq_nil_iff]
  intro r hr
  simpa using h r hr

/-- C1: On a database failure occurring after a connection was obtained,
each operation does return its failure value; but when the connection
itself cannot be obtained (`get_dbConn()` returns `None`), the `except`
handlers of `get_url`, `put_shorturl` and `put_reset` call
`dbConn.rollback()` on `None`, and the resulting `AttributeError`
propagates to the caller instead of the failure value.  Only `get_stats`
(whose handler performs no rollback) absorbs the connection failure into
`-1`.  This theorem evaluates the code at the failing input. -/
theorem shorten_conn_failure_propagates :
    get_url false none [⟨"abc", "http://example.com", 0⟩] "abc"
      = (PyResult.exc "AttributeError", [⟨"abc", "http://example.com", 0⟩]) ∧
    put_shorturl false none [] "http://example.com" "abc"
      = (PyResult.exc "AttributeError", []) ∧
    put_reset false none [] = (PyResult.exc "AttributeError", []) ∧
    get_stats false none [] "abc" = (PyResult.ok (-1), []) ∧
    (∀ (fault : Option Nat) (t : Table) (s longurl : String),
      (∃ v, (get_url true fault t s).1 = PyResult.ok v) ∧
      (∃ v, (put_shorturl true fault t longurl s).1 = PyResult.ok v) ∧
      (∃ v, (put_reset true fault t).1 = PyResult.ok v) ∧
      (∃ v, (get_stats true fault t s).1 = PyResult.ok v)) := by
  refine ⟨rfl, rfl, rfl, rfl, ?_⟩
  intro fault t s longurl
  refine ⟨?_, ?_, ?_, ?_⟩
  · unfold get_url
    rw [if_neg (by simp)]
    split_ifs <;> exact ⟨_, rfl⟩
  · unfold put_shorturl
    rw [if_neg (by simp)]
    cases hf : findRow t s <;> dsimp only <;> (try split_ifs) <;>
      exact ⟨_, rfl⟩
  · unfold put_reset
    rw [if_neg (by simp)]
    split_ifs <;> exact ⟨_, rfl⟩
  · unfold get_stats
    rw [if_neg (by simp)]
    split_ifs
    · exact ⟨_, rfl⟩
    · cases hf : findRow t s with
      | none => exact ⟨_, rfl⟩
      | some row => exact ⟨_, rfl⟩

/-- C10: `get_stats` returns the stored lookup counter when the key has a
row, `-1` when it is absent, and `-1` on every database failure (a caller
cannot tell an absent key from a failure, both yield `-1 = statsOf`-absent
value), and it never modifies the table. -/
theorem get_stats_reports_count :
    ∀ (conn : Bool) (fault : Option Nat) (t : Table) (s : String),
      get_stats conn fault t s =
        (PyResult.ok (if getStatsOk conn fault = true then statsOf t s else -1),
          t) := by
  intro conn fault t s
  cases conn with
  | false => simp [get_stats, getStatsOk]
  | true =>
    cases fault with
    | none =>
      cases hf : findRow t s <;>
        simp [get_stats, getStatsOk, noFaultBelow, statsOf, hf]
    | some k =>
      by_cases h0 : k = 0
      · subst h0
        simp [get_stats, getStatsOk, noFaultBelow]
      · have hk1 : noFaultBelow (some k) 1 = true := by
          simp only [noFaultBelow, decide_eq_true_eq]
          omega
        have hs0 : ¬ ((some k : Option Nat) = some 0) := by simpa using h0
        cases hf : findRow t s <;>
          simp [get_stats, getStatsOk, hk1, hs0, statsOf, hf]

/-- C3: When the key is absent, `put_shorturl` inserts the row with counter
zero and returns `True`; an immediate second call with the same pair finds
the row mapping to the same long URL and returns `True` without writing,
leaving exactly one row for that key, with counter `0` and the given long
URL. -/
theorem put_shorturl_idempotent (t : Table) (longurl shorturl : String)
    (h : findRow t shorturl = none) :
    put_shorturl true none t longurl shorturl
      = (PyResult.ok true, t ++ [⟨shorturl, longurl, 0⟩]) ∧
    put_shorturl true none (t ++ [⟨shorturl, longurl, 0⟩]) longurl shorturl
      = (PyResult.ok true, t ++ [⟨shorturl, longurl, 0⟩]) ∧
    rowsFor (t ++ [⟨shorturl, longurl, 0⟩]) shorturl
      = [⟨shorturl, longurl, 0⟩] := by
  have hfind2 : findRow (t ++ [⟨shorturl, longurl, 0⟩]) shorturl
      = some ⟨shorturl, longurl, 0⟩ := by
    rw [findRow_append_none _ h, findRow_cons]
    simp
  refine ⟨?_, ?_, ?_⟩
  · simp [put_shorturl, h]
  · simp [put_shorturl, hfind2]
  · have h0 : rowsFor t shorturl = [] := rowsFor_eq_nil h
    simp only [rowsFor, List.filter_append] at h0 ⊢
    rw [h0]
    simp

/-- C3 witness: inserting `("http://example.com", "abc")` into the empty
table twice succeeds both times and leaves the single expected row. -/
theorem put_shorturl_idempotent_witness :
    findRow ([] : Table) "abc" = none ∧
    (put_shorturl true none [] "http://example.com" "abc"
        = (PyResult.ok true, [⟨"abc", "http://example.com", 0⟩]) ∧
      put_shorturl true none [⟨"abc", "http://example.com", 0⟩]
          "http://example.com" "abc"
        = (PyResult.ok true, [⟨"abc", "http://example.com", 0⟩]) ∧
      rowsFor [(⟨"abc", "http://example.com", 0⟩ : Row)] "abc"
        = [⟨"abc", "http://example.com", 0⟩]) :=
  ⟨rfl, put_shorturl_idempotent [] "http://example.com" "abc" rfl⟩

/-- C4: Against a table keyed by short URL that contains a row for the key
with a different long URL, `put_shorturl` returns `False` and leaves the
table exactly as it was, under every injected database fault as well as on
the fault-free path. -/
theorem put_shorturl_collision (t : Table) (shorturl longurl : String)
    (c : Nat) (longurl2 : String) (hK : Keyed t)
    (hmem : (⟨shorturl, longurl, c⟩ : Row) ∈ t) (hne : longurl2 ≠ longurl)
    (fault : Option Nat) :
    put_shorturl true fault t longurl2 shorturl = (PyResult.ok false, t) := by
  have hfind : findRow t shorturl = some ⟨shorturl, longurl, c⟩ :=
    findRow_keyed_mem hK hmem
  have hbe : (longurl == longurl2) = false := beq_eq_false_iff_ne.mpr hne.symm
  unfold put_shorturl
  rw [hfind]
  split_ifs with h1 h2 h3 h4 h5 <;> first | rfl | simp_all

/-- C4 witness: a collision on key `"abc"` fails and leaves the stored row
(with its counter) unchanged. -/
theorem put_shorturl_collision_witness :
    Keyed [⟨"abc", "http://example.com", 2⟩] ∧
    (⟨"abc", "http://example.com", 2⟩ : Row)
      ∈ [(⟨"abc", "http://example.com", 2⟩ : Row)] ∧
    "http://other.com" ≠ "http://example.com" ∧
    put_shorturl true none [⟨"abc", "http://example.com", 2⟩]
        "http://other.com" "abc"
      = (PyResult.ok false, [⟨"abc", "http://example.com", 2⟩]) :=
  ⟨List.pairwise_singleton _ _, List.mem_singleton.mpr rfl, by decide,
    put_shorturl_collision _ "abc" "http://example.com" 2 "http://other.com"
      (List.pairwise_singleton _ _) (List.mem_singleton.mpr rfl) (by decide)
      none⟩

theorem incrKey_fields (t : Table) (s : String) :
    (incrKey s t).map Row.shorturl = t.map Row.shorturl ∧
    (incrKey s t).map Row.longurl = t.map Row.longurl ∧
    (incrKey s t).map Row.count
      = t.map fun r => if r.shorturl == s then r.count + 1 else r.count := by
  induction t with
  | nil => exact ⟨rfl, rfl, rfl⟩
  | cons x xs ih =>
    rcases ih with ⟨i1, i2, i3⟩
    rw [show incrKey s (x :: xs)
        = (if x.shorturl == s then { x with count := x.count + 1 } else x)
            :: incrKey s xs from rfl]
    cases hb : x.shorturl == s with
    | true =>
      have hb2 : x.shorturl = s := by simpa using hb
      rw [if_pos rfl]
      refine ⟨?_, ?_, ?_⟩ <;> simp [i1, i2, i3, hb2]
    | false =>
      have hb2 : ¬ x.shorturl = s := by simpa using hb
      rw [if_neg (by simp)]
      refine ⟨?_, ?_, ?_⟩ <;> simp [i1, i2, i3, hb2]

/-- C2: For every key, table and injected failure, `get_url` either
succeeds — the transaction commits, each row carrying the key has its
counter incremented exactly once (all other fields and rows untouched),
and the long URL associated with the key in the pre-state (empty string
when absent) is returned — or fails, in which case the rollback leaves the
committed table exactly as it was, so no increment ever survives without
the lookup succeeding. -/
theorem get_url_transactional :
    ∀ (conn : Bool) (fault : Option Nat) (t : Table) (s : String),
      (getUrlOk conn fault = true →
        get_url conn fault t s
          = (PyResult.ok ((findRow t s).elim "" Row.longurl), incrKey s t)) ∧
      (getUrlOk conn fault = false → (get_url conn fault t s).2 = t) ∧
      (incrKey s t).map Row.shorturl = t.map Row.shorturl ∧
      (incrKey s t).map Row.longurl = t.map Row.longurl ∧
      (incrKey s t).map Row.count
        = t.map fun r => if r.shorturl == s then r.count + 1 else r.count := by
  intro conn fault t s
  refine ⟨?_, ?_, incrKey_fields t s⟩
  · intro hok
    simp only [getUrlOk, Bool.and_eq_true] at hok
    have h1 : ¬ conn = false := by simp [hok.1]
    have hf : ∀ i, i < 4 → ¬ fault = some i := by
      intro i hi hcontra
      subst hcontra
      have := hok.2
      simp only [noFaultBelow, decide_eq_true_eq] at this
      omega
    unfold get_url
    rw [if_neg h1, if_neg (hf 0 (by omega)), if_neg (hf 1 (by omega)),
        if_neg (hf 2 (by omega)), if_neg (hf 3 (by omega))]
    dsimp only
    rw [findRow_incrKey]
    cases hfr : findRow t s <;> simp
  · intro hbad
    unfold get_url
    split_ifs with h1 h2 h3 h4 h5
    · rfl
    · rfl
    · rfl
    · rfl
    · rfl
    · exfalso
      have hconn : conn = true := by
        cases conn
        · exact absurd rfl h1
        · rfl
      have : getUrlOk conn fault = true := by
        simp [getUrlOk, hconn, noFaultBelow_four h2 h3 h4 h5]
      rw [this] at hbad
      cases hbad

/-- C2 witness: a fault-free lookup of `"abc"` against a one-row table
returns the stored long URL and bumps the stored counter from 3 to 4. -/
theorem get_url_transactional_witness :
    getUrlOk true none = true ∧
    get_url true none [⟨"abc", "http://example.com", 3⟩] "abc"
      = (PyResult.ok "http://example.com",
          [⟨"abc", "http://example.com", 4⟩]) := by
  refine ⟨rfl, ?_⟩
  have h := (get_url_transactional true none
    [⟨"abc", "http://example.com", 3⟩] "abc").1 rfl
  simpa using h

theorem inv_unchanged {t : Table} (hK : Keyed t) {r r1 : Row} (hr : r ∈ t)
    (hr1 : r1 ∈ t) (hkey : r1.shorturl = r.shorturl) (C : Prop) :
    r1.longurl = r.longurl ∧ r.count ≤ r1.count ∧ (r.count < r1.count → C) := by
  have he : r1 = r := keyed_eq_of_mem hK hr1 hr hkey
  subst he
  exact ⟨rfl, le_refl _, fun h => absurd h (lt_irrefl _)⟩

/-- C9: Every mapping-store operation, under every connection outcome and
injected database fault, preserves the table invariant: a row whose key
survives the operation keeps its long URL, its counter never decreases,
and the counter strictly increases only when the operation was a
successful `get_url` lookup of that very key. -/
theorem mapping_store_invariant (op : MappingOp) (conn : Bool)
    (fault : Option Nat) (t : Table) (hK : Keyed t) :
    ∀ r ∈ t, ∀ r1 ∈ applyOp op conn fault t, r1.shorturl = r.shorturl →
      r1.longurl = r.longurl ∧ r.count ≤ r1.count ∧
      (r.count < r1.count →
        op = MappingOp.lookupOp r.shorturl ∧ getUrlOk conn fault = true) := by
  intro r hr r1 hr1 hkey
  cases op with
  | lookupOp s =>
    simp only [applyOp] at hr1
    unfold get_url at hr1
    split_ifs at hr1 with h1 h2 h3 h4 h5
    · exact inv_unchanged hK hr hr1 hkey _
    · exact inv_unchanged hK hr hr1 hkey _
    · exact inv_unchanged hK hr hr1 hkey _
    · exact inv_unchanged hK hr hr1 hkey _
    · exact inv_unchanged hK hr hr1 hkey _
    · have hr1m : r1 ∈ incrKey s t := hr1
      rcases List.mem_map.mp hr1m with ⟨r0, hr0, heq⟩
      by_cases hb : r0.shorturl = s
      · have hbe : (r0.shorturl == s) = true := by simpa using hb
        rw [if_pos hbe] at heq
        have hkey0 : r0.shorturl = r.shorturl := by
          rw [← heq] at hkey
          exact hkey
        have hre : r0 = r := keyed_eq_of_mem hK hr0 hr hkey0
        subst hre
        rw [← heq]
        refine ⟨rfl, Nat.le_succ _, fun _ => ⟨?_, ?_⟩⟩
        · rw [hb]
        · have hconn : conn = true := by
            cases conn
            · exact absurd rfl h1
            · rfl
          simp [getUrlOk, hconn, noFaultBelow_four h2 h3 h4 h5]
      · have hbe : ¬ ((r0.shorturl == s) = true) := by simpa using hb
        rw [if_neg hbe] at heq
        subst heq
        exact inv_unchanged hK hr hr0 hkey _
  | putOp longurl shorturl =>
    simp only [applyOp] at hr1
    unfold put_shorturl at hr1
    rcases hfind : findRow t shorturl with _ | row <;>
        rw [hfind] at hr1 <;> dsimp only at hr1 <;> split_ifs at hr1 <;>
        first
        | exact inv_unchanged hK hr hr1 hkey _
        | skip
    rcases List.mem_append.mp hr1 with hmem | hmem
    · exact inv_unchanged hK hr hmem hkey _
    · have h1 : r1 = (⟨shorturl, longurl, 0⟩ : Row) :=
        List.mem_singleton.mp hmem
      have habs : r.shorturl ≠ shorturl :=
        findRow_eq_none_iff.mp hfind r hr
      rw [h1] at hkey
      exact absurd hkey.symm habs
  | resetOp =>
    simp only [applyOp] at hr1
    unfold put_reset at hr1
    split_ifs at hr1
    · exact inv_unchanged hK hr hr1 hkey _
    · exact inv_unchanged hK hr hr1 hkey _
    · exact inv_unchanged hK hr hr1 hkey _
    · exact inv_unchanged hK hr hr1 hkey _
    · exact absurd hr1 (List.not_mem_nil r1)
  | statsOp s =>
    simp only [applyOp] at hr1
    unfold get_stats at hr1
    rcases hfind : findRow t s with _ | row <;> rw [hfind] at hr1 <;>
      dsimp only at hr1 <;> split_ifs at hr1 <;>
      exact inv_unchanged hK hr hr1 hkey _

/-- C9 witness: a successful lookup of `"abc"` on a keyed one-row table —
the surviving row keeps its long URL, its counter rises from 0 to 1, and
the strict increase is indeed attributed to a successful lookup of that
key. -/
theorem mapping_store_invariant_witness :
    Keyed [⟨"abc", "http://example.com", 0⟩] ∧
    ((⟨"abc", "http://example.com", 1⟩ : Row).longurl
        = (⟨"abc", "http://example.com", 0⟩ : Row).longurl ∧
      (⟨"abc", "http://example.com", 0⟩ : Row).count
        ≤ (⟨"abc", "http://example.com", 1⟩ : Row).count ∧
      ((⟨"abc", "http://example.com", 0⟩ : Row).count
          < (⟨"abc", "http://example.com", 1⟩ : Row).count →
        MappingOp.lookupOp "abc"
            = MappingOp.lookupOp
                (⟨"abc", "http://example.com", 0⟩ : Row).shorturl ∧
          getUrlOk true none = true)) := by
  have hK : Keyed [(⟨"abc", "http://example.com", 0⟩ : Row)] :=
    List.pairwise_singleton _ _
  refine ⟨hK, ?_⟩
  exact mapping_store_invariant (MappingOp.lookupOp "abc") true none _ hK
    _ (List.mem_singleton.mpr rfl) _ (by decide) rfl

end Shorten

namespace PhotoApp

/-- C8: The configured backoff `wait_exponential(multiplier=1, min=2,
max=30)` is non-decreasing in the attempt number and never exceeds the
30-second ceiling. -/
theorem backoff_monotone_capped :
    ∀ n : Nat, photoappWait n ≤ photoappWait (n + 1) ∧ photoappWait n ≤ 30 := by
  intro n
  constructor
  · unfold photoappWait waitExp
    apply max_le_max (le_refl 2)
    apply min_le_min _ (le_refl 30)
    simp only [one_mul]
    exact Nat.pow_le_pow_right (by norm_num) (by omega)
  · unfold photoappWait waitExp
    exact max_le (by norm_num) (min_le_right _ _)

/-- C7: Under the retry decorator every operation carries, a first attempt
that raises a non-retryable error (which includes every received HTTP
error status — `HTTPError`, `ValueError` and `KeyError` are all outside
`(ConnectionError, Timeout)`) ends the call at exactly one attempt, with
the error re-raised and no backoff sleep performed. -/
theorem non_retryable_single_attempt :
    (∀ (α : Type) (op : Nat → Except ApiError α) (e : ApiError),
      op 1 = Except.error e → isRetryable e = false →
      runRetry op = (Except.error e, 1, [])) ∧
    (∀ m, isRetryable (ApiError.httpError m) = false ∧
      isRetryable (ApiError.valueError m) = false ∧
      isRetryable (ApiError.keyError m) = false) := by
  constructor
  · intro α op e h1 h2
    unfold runRetry
    simp only [retryExec]
    rw [h1]
    simp [h2]
  · intro m
    exact ⟨rfl, rfl, rfl⟩

/-- C7 witness: a server-fault `HTTPError` on the first attempt is raised
after that single attempt with no sleeps. -/
theorem non_retryable_single_attempt_witness :
    (fun _ : Nat => (Except.error (ApiError.httpError "status code 500: oops") :
        Except ApiError Nat)) 1
      = Except.error (ApiError.httpError "status code 500: oops") ∧
    isRetryable (ApiError.httpError "status code 500: oops") = false ∧
    runRetry (fun _ : Nat =>
        (Except.error (ApiError.httpError "status code 500: oops") :
          Except ApiError Nat))
      = (Except.error (ApiError.httpError "status code 500: oops"), 1, []) :=
  ⟨rfl, rfl, non_retryable_single_attempt.1 Nat _ _ rfl rfl⟩

/-- C5 counterexample: on status 400 with body message `no such assetid`,
`get_image` raises `ValueError` whose message is
`status code 400: no such assetid` — the server message prefixed with the
status — not exactly `no such assetid` as the claim states. -/
theorem get_image_400_message_counterexample :
    (get_image (fun _ => HttpAttempt.resp 400 (Body.message "no such assetid"))
        "asset17" none).1
      = Except.error (ApiError.valueError "status code 400: no such assetid") ∧
    "status code 400: no such assetid" ≠ "no such assetid" := by
  constructor
  · rfl
  · decide

/-- C5 amended: when the transport's first attempt yields status 400 with
body message `no such assetid`, `get_image` raises a `ValueError` carrying
that server message prefixed with the status code
(`status code 400: no such assetid`), after exactly one transport attempt
and no backoff sleep. -/
theorem get_image_400_client_fault :
    ∀ (tr : Nat → HttpAttempt) (assetid : String) (lf : Option String),
      tr 1 = HttpAttempt.resp 400 (Body.message "no such assetid") →
      get_image tr assetid lf
        = (Except.error
            (ApiError.valueError "status code 400: no such assetid"),
          1, []) := by
  intro tr assetid lf h
  have hop : get_image_attempt lf (tr 1)
      = Except.error
          (ApiError.valueError "status code 400: no such assetid") := by
    rw [h]
    rfl
  unfold get_image runRetry
  simp only [retryExec]
  rw [hop]
  simp [isRetryable]

/-- C5 witness: the amended behaviour at the concrete transport oracle
that always answers 400 / `no such assetid`. -/
theorem get_image_400_client_fault_witness :
    (fun _ : Nat => HttpAttempt.resp 400 (Body.message "no such assetid")) 1
      = HttpAttempt.resp 400 (Body.message "no such assetid") ∧
    get_image (fun _ => HttpAttempt.resp 400 (Body.message "no such assetid"))
        "asset17" (some "out.jpg")
      = (Except.error (ApiError.valueError "status code 400: no such assetid"),
          1, []) :=
  ⟨rfl, get_image_400_client_fault _ "asset17" (some "out.jpg") rfl⟩

theorem post_image_of_validate_error (fs : FS) (u : String)
    (lf : Option String) (m : String)
    (hv : validate_local_filename fs lf
      = Except.error (ApiError.valueError m)) :
    (∀ tr, post_image fs u lf tr
      = (Except.error (ApiError.valueError m), 1, [])) ∧
    (∀ a, (post_image_attempt fs u lf a).2 = false) := by
  have hstep : ∀ a, post_image_attempt fs u lf a
      = (Except.error (ApiError.valueError m), false) := by
    intro a
    unfold post_image_attempt
    rw [hv]
  constructor
  · intro tr
    unfold post_image runRetry
    simp only [retryExec]
    simp [hstep, isRetryable]
  · intro a
    rw [hstep a]

/-- C6 amended: `post_image` validates locally before any network call —
a `None`, blank, or not-an-existing-regular-file `local_filename` raises
`ValueError` with no transport attempt made and a single retry attempt
consumed.  (The zero-byte-file clause of the claim is dropped: the source
never examines the file's size, see the counterexample.) -/
theorem post_image_validation_fails_fast :
    ∀ (fs : FS) (u : String) (lf : Option String),
      (∀ f, lf = some f → f.data.all Char.isWhitespace = true ∨ fs f = none) →
      ∃ m, validate_local_filename fs lf
          = Except.error (ApiError.valueError m) ∧
        (∀ tr, post_image fs u lf tr
          = (Except.error (ApiError.valueError m), 1, [])) ∧
        (∀ a, (post_image_attempt fs u lf a).2 = false) := by
  intro fs u lf h
  have hv : ∃ m, validate_local_filename fs lf
      = Except.error (ApiError.valueError m) := by
    cases lf with
    | none => exact ⟨_, rfl⟩
    | some f =>
      by_cases ht : f.data.all Char.isWhitespace = true
      · refine ⟨"local_filename cannot be empty", ?_⟩
        simp [validate_local_filename, ht]
      · have hn : fs f = none := (h f rfl).resolve_left ht
        refine ⟨"local_filename does not exist or is not a file", ?_⟩
        simp [validate_local_filename, ht, hn]
  rcases hv with ⟨m, hm⟩
  exact ⟨m, hm, (post_image_of_validate_error fs u lf m hm).1,
    (post_image_of_validate_error fs u lf m hm).2⟩

/-- C6 witness: a filename that names no file fails validation, the upload
raises `ValueError` after one attempt, and no transport call is made. -/
theorem post_image_validation_fails_fast_witness :
    (∀ f, (some "photo.jpg" : Option String) = some f →
      f.data.all Char.isWhitespace = true
        ∨ (fun _ => (none : Option Nat)) f = none) ∧
    (∃ m, validate_local_filename (fun _ => none) (some "photo.jpg")
        = Except.error (ApiError.valueError m) ∧
      (∀ tr, post_image (fun _ => none) "u7" (some "photo.jpg") tr
        = (Except.error (ApiError.valueError m), 1, [])) ∧
      (∀ a, (post_image_attempt (fun _ => none) "u7" (some "photo.jpg") a).2
        = false)) :=
  ⟨fun _ _ => Or.inr rfl,
    post_image_validation_fails_fast (fun _ => none) "u7" (some "photo.jpg")
      (fun _ _ => Or.inr rfl)⟩

/-- C6 counterexample: an existing zero-byte file passes
`_validate_local_filename` — `post_image` does not raise before the
network; it performs a transport attempt and, here, succeeds. -/
theorem post_image_empty_file_counterexample :
    emptyFileFS "empty.png" = some 0 ∧
    (post_image_attempt emptyFileFS "u7" (some "empty.png")
        (HttpAttempt.resp 200 (Body.asset "asset42"))).2 = true ∧
    post_image emptyFileFS "u7" (some "empty.png")
        (fun _ => HttpAttempt.resp 200 (Body.asset "asset42"))
      = (Except.ok "asset42", 1, []) := by
  refine ⟨rfl, rfl, rfl⟩

end PhotoApp
